import Mathlib

/-!
Shallow embedding of the jsDAV CalDAV calendar-query validator
(src/lib/CalDAV/calendarQueryValidator.js) together with theorems about
its filter-evaluation semantics.

The validator walks a parsed filter tree (comp-filters, prop-filters,
param-filters, text-match, time-range) against a parsed calendar object
tree and decides a boolean, possibly raising one of two domain errors.
Fallible JavaScript control flow is embedded in the Except monad; a
JavaScript TypeError caused by a property access on undefined is modelled
by a dedicated error constructor.
-/

/-- Error kinds surfaced by the validator: the two domain errors from
shared exceptions (NotImplemented, BadRequest) and the implicit JavaScript
TypeError raised by a property access on an undefined value. -/
inductive VErr where
  | notImplemented (msg : String)
  | badRequest (msg : String)
  | typeError (msg : String)
deriving DecidableEq, Repr

/-- Modelled from the spec: a node of the calendar object tree (the VObject
component model lives outside this source file). A node carries its name,
a scalar value for text matching, a date-time value (getDateTime) as an
integer instant, a recurrence-aware range containment test (isInTimeRange,
delegated to the external object model) and its ordered direct children. -/
inductive VNode where
  | mk (name : String) (value : String) (dateTime : Int)
      (inTimeRange : Int → Int → Bool) (children : List VNode)

def VNode.name : VNode → String
  | .mk n _ _ _ _ => n

def VNode.value : VNode → String
  | .mk _ v _ _ _ => v

def VNode.dateTime : VNode → Int
  | .mk _ _ d _ _ => d

def VNode.inTimeRange : VNode → Int → Int → Bool
  | .mk _ _ _ f _ => f

def VNode.children : VNode → List VNode
  | .mk _ _ _ _ cs => cs

instance : Inhabited VNode := ⟨VNode.mk "" "" 0 (fun _ _ => false) []⟩

/-- Modelled from the spec: hasNamedChild (vObject.isset) — a node has a
named child exactly when some direct child carries that name. -/
def VNode.isset (v : VNode) (n : String) : Bool :=
  v.children.any (fun c => c.name == n)

/-- Modelled from the spec: selectNamedChildren (vObject.select) — all
direct children with the given name, in document order. -/
def VNode.select (v : VNode) (n : String) : List VNode :=
  v.children.filter (fun c => c.name == n)

/-- Source getChildren: the ordered direct children of a node. -/
def VNode.getChildren (v : VNode) : List VNode := v.children

/-- Filter time-range: optional start and end bounds (Date values are
embedded as integer instants). -/
structure TimeRange where
  start : Option Int
  end_ : Option Int

/-- Filter text-match node: pattern value, match type and the
negate-condition flag. -/
structure TextMatch where
  value : String
  matchType : String
  negateCondition : Bool

/-- Parsed param-filter node. -/
structure ParamFilter where
  name : String
  isNotDefined : Bool
  textMatch : Option TextMatch

/-- Parsed prop-filter node. -/
structure PropFilter where
  name : String
  isNotDefined : Bool
  timeRange : Option TimeRange
  textMatch : Option TextMatch
  paramFilters : List ParamFilter

/-- Parsed comp-filter node; comp-filters nest recursively. -/
inductive CompFilter where
  | mk (name : String) (isNotDefined : Bool) (timeRange : Option TimeRange)
      (compFilters : List CompFilter) (propFilters : List PropFilter)

def CompFilter.name : CompFilter → String
  | .mk n _ _ _ _ => n

def CompFilter.isNotDefined : CompFilter → Bool
  | .mk _ d _ _ _ => d

def CompFilter.timeRange : CompFilter → Option TimeRange
  | .mk _ _ tr _ _ => tr

def CompFilter.compFilters : CompFilter → List CompFilter
  | .mk _ _ _ cfs _ => cfs

def CompFilter.propFilters : CompFilter → List PropFilter
  | .mk _ _ _ _ pfs => pfs

/-- Parsed root filter (named RootFilter here because Filter is taken by
the ambient mathematical library). -/
structure RootFilter where
  name : String
  compFilters : List CompFilter
  propFilters : List PropFilter

/-- Default lower bound used when a time-range has no start
(source: new Date(1900, 1, 1), i.e. 1900-02-01; integer stand-in for that
Date constant). -/
def defaultStartDate : Int := -2206310400000

/-- Default upper bound used when a time-range has no end
(source: new Date(3000, 1, 1), i.e. 3000-02-01; integer stand-in for that
Date constant). -/
def defaultEndDate : Int := 32506358400000

/-- Modelled from the spec: Util.textMatch, the external text-matching
collaborator (shared/util.js is outside this source file). It returns
whether the haystack value matches the needle under the given match type;
the validator consumes only its boolean result. -/
def utilTextMatch (haystack needle matchType : String) : Bool :=
  match matchType with
  | "equals" => haystack == needle
  | "starts-with" => haystack.startsWith needle
  | "ends-with" => haystack.endsWith needle
  | _ => (haystack.splitOn needle).length > 1

/-- Source _validateTextMatch. The component is unwrapped to its scalar
value (the hasFeature branch) and the external matcher result is XORed
with the negate-condition flag. When the text-match node is absent the
source dereferences textMatch.value on undefined, a JavaScript TypeError,
modelled as the typeError constructor. -/
def validateTextMatch (component : VNode) (textMatch : Option TextMatch) :
    Except VErr Bool :=
  match textMatch with
  | none => Except.error (VErr.typeError "Cannot read property value of undefined")
  | some tm =>
      Except.ok (Bool.xor tm.negateCondition
        (utilTextMatch component.value tm.value tm.matchType))

/-- Source _validateTimeRange: per-component-type time-range dispatch.
The JavaScript switch is embedded as an if-chain over the component name. -/
def validateTimeRange (component : VNode) (filter : Option TimeRange) :
    Except VErr Bool :=
  match filter with
  | none => Except.ok true
  | some f =>
      let start := f.start.getD defaultStartDate
      let end_ := f.end_.getD defaultEndDate
      if component.name = "VEVENT" ∨ component.name = "VTODO" ∨
         component.name = "VJOURNAL" then
        Except.ok (component.inTimeRange start end_)
      else if component.name = "VALARM" then
        Except.ok false
      else if component.name = "VFREEBUSY" then
        Except.error (VErr.notImplemented
          ("time-range filters are currently not supported on " ++
            component.name ++ " components"))
      else if component.name = "COMPLETED" ∨ component.name = "CREATED" ∨
              component.name = "DTEND" ∨ component.name = "DTSTAMP" ∨
              component.name = "DTSTART" ∨ component.name = "DUE" ∨
              component.name = "LAST-MODIFIED" then
        Except.ok (decide (start ≤ component.dateTime) &&
          decide (end_ ≥ component.dateTime))
      else
        Except.error (VErr.badRequest
          ("You cannot create a time-range filter on a " ++
            component.name ++ " component"))

/-- Result record of _checkChildPresence. -/
structure PresenceResult where
  children : List VNode
  stop : Bool
  result : Bool

/-- Source _checkChildPresence, shared by the three filter validators via
mkCommonValidator; the filter node is passed as its name and its
is-not-defined flag. -/
def checkChildPresence (vObject : VNode) (name : String)
    (isNotDefined : Bool) : PresenceResult :=
  let isChildPresent := vObject.isset name
  { children := if isChildPresent then vObject.select name else []
    stop := !(isChildPresent && !isNotDefined)
    result := Bool.xor isChildPresent isNotDefined }

/-- Source _anyChildMatches: first child for which the validator yields
true wins; a thrown error propagates; the filter argument of the source is
captured in the closure. -/
def anyChildMatches (children : List VNode)
    (validator : VNode → Except VErr Bool) : Except VErr Bool :=
  match children with
  | [] => Except.ok false
  | c :: rest =>
      match validator c with
      | Except.error e => Except.error e
      | Except.ok true => Except.ok true
      | Except.ok false => anyChildMatches rest validator

/-- Source _validateFilterSet: conjunction over a filter list with
short-circuit at the first failure; a thrown error propagates. -/
def validateFilterSet {α : Type} (vObject : VNode) (filters : List α)
    (validator : VNode → α → Except VErr Bool) : Except VErr Bool :=
  match filters with
  | [] => Except.ok true
  | f :: rest =>
      match validator vObject f with
      | Except.error e => Except.error e
      | Except.ok false => Except.ok false
      | Except.ok true => validateFilterSet vObject rest validator

/-- Source _validateTimeRangeOnComponent: when a time-range is present it
must be matched by some direct child of the given component, each child
tested through _validateTimeRange. -/
def validateTimeRangeOnComponent (component : VNode)
    (timeRangeFilter : Option TimeRange) : Except VErr Bool :=
  match timeRangeFilter with
  | none => Except.ok true
  | some tr =>
      anyChildMatches component.getChildren
        (fun child => validateTimeRange child (some tr))

/-- Source _validateParamFilter (body of its mkCommonValidator
continuation plus the shared presence check): on the continue path only
the first matched parameter is text-matched. -/
def validateParamFilter (component : VNode) (filter : ParamFilter) :
    Except VErr Bool :=
  let r := checkChildPresence component filter.name filter.isNotDefined
  if r.stop then Except.ok r.result
  else validateTextMatch r.children.headI filter.textMatch

/-- Per-child conjunction of the prop-filter conditions: the anonymous
validator passed to _anyChildMatches inside _validatePropFilter. -/
def propFilterChildCheck (child : VNode) (filter : PropFilter) :
    Except VErr Bool :=
  match validateTimeRange child filter.timeRange with
  | Except.error e => Except.error e
  | Except.ok false => Except.ok false
  | Except.ok true =>
      match validateTextMatch child filter.textMatch with
      | Except.error e => Except.error e
      | Except.ok false => Except.ok false
      | Except.ok true =>
          validateFilterSet child filter.paramFilters validateParamFilter

/-- Source _validatePropFilter (mkCommonValidator continuation plus the
shared presence check): existential over the matched child properties. -/
def validatePropFilter (component : VNode) (filter : PropFilter) :
    Except VErr Bool :=
  let r := checkChildPresence component filter.name filter.isNotDefined
  if r.stop then Except.ok r.result
  else anyChildMatches r.children (fun child => propFilterChildCheck child filter)

mutual

/-- Source _validateCompFilter (mkCommonValidator continuation plus the
shared presence check): on the continue path only the first matched child
component (children at index 0) is examined, for the time-range and for
the nested filter sets. The index-0 access is modelled by headI; the empty
case is unreachable on the continue path (see the presence theorems). -/
def validateCompFilter (component : VNode) (filter : CompFilter) :
    Except VErr Bool :=
  match filter with
  | .mk name isNotDefined timeRange compFilters propFilters =>
      let r := checkChildPresence component name isNotDefined
      if r.stop then Except.ok r.result
      else
        let node := r.children.headI
        match validateTimeRangeOnComponent node timeRange with
        | Except.error e => Except.error e
        | Except.ok false => Except.ok false
        | Except.ok true =>
            match validateCompFilterSet node compFilters with
            | Except.error e => Except.error e
            | Except.ok false => Except.ok false
            | Except.ok true =>
                validateFilterSet node propFilters validatePropFilter

/-- Instance of _validateFilterSet at the comp-filter validator, split out
so the mutual recursion over the nested comp-filter lists is structural. -/
def validateCompFilterSet (vObject : VNode) (filters : List CompFilter) :
    Except VErr Bool :=
  match filters with
  | [] => Except.ok true
  | f :: rest =>
      match validateCompFilter vObject f with
      | Except.error e => Except.error e
      | Except.ok false => Except.ok false
      | Except.ok true => validateCompFilterSet vObject rest

end

/-- Source validate: entry point. A missing filter matches everything;
a root name mismatch is false; otherwise the top-level comp-filter and
prop-filter sets must both pass. -/
def validate (vObject : VNode) (filter : Option RootFilter) : Except VErr Bool :=
  match filter with
  | none => Except.ok true
  | some f =>
      if vObject.name = f.name then
        match validateCompFilterSet vObject f.compFilters with
        | Except.error e => Except.error e
        | Except.ok false => Except.ok false
        | Except.ok true => validateFilterSet vObject f.propFilters validatePropFilter
      else
        Except.ok false

/-! Concrete calendar objects and filters used as witnesses and
counterexamples. -/

/-- A SUMMARY property node with value Team Meeting. -/
def sampleSummaryProp : VNode := VNode.mk "SUMMARY" "Team Meeting" 0 (fun _ _ => false) []

/-- A DTSTART property node whose date-time instant is 5. -/
def sampleDTSTARTProp : VNode := VNode.mk "DTSTART" "" 5 (fun _ _ => false) []

/-- A VCALENDAR object holding one SUMMARY property. -/
def sampleCalObj : VNode := VNode.mk "VCALENDAR" "" 0 (fun _ _ => false) [sampleSummaryProp]

/-- A VTIMEZONE node: outside the time-range supported set. -/
def sampleVTimezone : VNode := VNode.mk "VTIMEZONE" "" 0 (fun _ _ => false) []

/-- A VALARM node. -/
def sampleValarm : VNode := VNode.mk "VALARM" "" 0 (fun _ _ => false) []

/-- A node named VFREEBUSY. -/
def sampleFreeBusyProp : VNode := VNode.mk "VFREEBUSY" "" 0 (fun _ _ => false) []

/-- A concrete time-range with both bounds present. -/
def sampleTR : TimeRange := ⟨some 1, some 10⟩

/-- A VCALENDAR object holding one VFREEBUSY child. -/
def sampleFBCal : VNode := VNode.mk "VCALENDAR" "" 0 (fun _ _ => false) [sampleFreeBusyProp]

/-- A prop-filter that selects the VFREEBUSY child and carries a
time-range, to exhibit error propagation out of validate. -/
def sampleFBPropFilter : PropFilter := ⟨"VFREEBUSY", false, some sampleTR, none, []⟩

/-- Root filter wrapping sampleFBPropFilter. -/
def sampleFBRootFilter : RootFilter := ⟨"VCALENDAR", [], [sampleFBPropFilter]⟩

/-- A prop-filter selecting SUMMARY with no text-match node at all. -/
def c2PropFilter : PropFilter := ⟨"SUMMARY", false, none, none, []⟩

/-- An equality text-match for the value Team Meeting. -/
def c4TextMatch : TextMatch := ⟨"Team Meeting", "equals", false⟩

/-- A prop-filter selecting SUMMARY with an equality text-match. -/
def c4PropFilter : PropFilter := ⟨"SUMMARY", false, none, some c4TextMatch, []⟩

/-- A VEVENT with no children whose recurrence containment test never
holds. -/
def cexEventNoMatch : VNode := VNode.mk "VEVENT" "" 0 (fun _ _ => false) []

/-- A VEVENT whose recurrence containment test always holds. -/
def cexEventMatch : VNode := VNode.mk "VEVENT" "" 0 (fun _ _ => true) []

/-- A VCALENDAR with two VEVENT children: the first never matches a
time-range, the second always does. -/
def cexParent : VNode := VNode.mk "VCALENDAR" "" 0 (fun _ _ => false) [cexEventNoMatch, cexEventMatch]

/-- Comp-filter on VEVENT carrying a time-range and no nested filters. -/
def cexCompFilter : CompFilter := CompFilter.mk "VEVENT" false (some sampleTR) [] []

/-- A SUMMARY property that precedes any date property in its parent. -/
def c10Summary : VNode := VNode.mk "SUMMARY" "Standup" 0 (fun _ _ => false) []

/-- A VEVENT whose first child is a SUMMARY property and whose second is a
DTSTART property. -/
def c10Event : VNode := VNode.mk "VEVENT" "" 0 (fun _ _ => false) [c10Summary, sampleDTSTARTProp]

/-- A VCALENDAR holding c10Event. -/
def c10Cal : VNode := VNode.mk "VCALENDAR" "" 0 (fun _ _ => false) [c10Event]

/-- Comp-filter on VEVENT with a time-range and no nested filters. -/
def c10CompFilter : CompFilter := CompFilter.mk "VEVENT" false (some sampleTR) [] []

/-- Root filter wrapping c10CompFilter. -/
def c10RootFilter : RootFilter := ⟨"VCALENDAR", [c10CompFilter], []⟩

/-! Helper lemmas shared by several claim theorems. -/

/-- Unfolding lemma: the stop flag of the presence check. -/
theorem checkChildPresence_stop_eq (v : VNode) (n : String) (d : Bool) :
    (checkChildPresence v n d).stop = !(v.isset n && !d) := rfl

/-- Unfolding lemma: the result flag of the presence check. -/
theorem checkChildPresence_result_eq (v : VNode) (n : String) (d : Bool) :
    (checkChildPresence v n d).result = Bool.xor (v.isset n) d := rfl

/-- Unfolding lemma: the matched children of the presence check. -/
theorem checkChildPresence_children_eq (v : VNode) (n : String) (d : Bool) :
    (checkChildPresence v n d).children =
      if v.isset n then v.select n else [] := rfl

/-- On any component outside the twelve names recognised by the switch,
a present time-range filter takes the default branch and throws
BadRequest. -/
theorem validateTimeRange_default_aux (c : VNode) (tr : TimeRange)
    (h : c.name ∉ (["VEVENT", "VTODO", "VJOURNAL", "VALARM", "VFREEBUSY",
      "COMPLETED", "CREATED", "DTEND", "DTSTAMP", "DTSTART", "DUE",
      "LAST-MODIFIED"] : List String)) :
    validateTimeRange c (some tr) = Except.error (VErr.badRequest
      ("You cannot create a time-range filter on a " ++ c.name ++ " component")) := by
  simp only [List.mem_cons, List.not_mem_nil, or_false, not_or] at h
  obtain ⟨h1, h2, h3, h4, h5, h6, h7, h8, h9, h10, h11, h12⟩ := h
  simp [validateTimeRange, h1, h2, h3, h4, h5, h6, h7, h8, h9, h10, h11, h12]

/-! Claim theorems. -/

/-- C3: for every parent node and filter name with an is-not-defined flag,
the presence check realises exactly the stop/result table on the pair
(exists, isNotDefined): (false,false) stops with result false;
(false,true) stops with result true; (true,false) continues;
(true,true) stops with result false. -/
theorem checkChildPresence_table (v : VNode) (n : String) (d : Bool) :
    (v.isset n = false ∧ d = false →
      (checkChildPresence v n d).stop = true ∧
      (checkChildPresence v n d).result = false) ∧
    (v.isset n = false ∧ d = true →
      (checkChildPresence v n d).stop = true ∧
      (checkChildPresence v n d).result = true) ∧
    (v.isset n = true ∧ d = false →
      (checkChildPresence v n d).stop = false) ∧
    (v.isset n = true ∧ d = true →
      (checkChildPresence v n d).stop = true ∧
      (checkChildPresence v n d).result = false) := by
  cases h : v.isset n <;> cases d <;>
    simp [checkChildPresence_stop_eq, checkChildPresence_result_eq, h]

/-- Witness for C3: the four rows of the table at concrete inputs — a
childless VTIMEZONE (name absent) and a VCALENDAR holding a SUMMARY
property (name present). -/
theorem checkChildPresence_table_witness :
    ((checkChildPresence sampleVTimezone "SUMMARY" false).stop = true ∧
      (checkChildPresence sampleVTimezone "SUMMARY" false).result = false) ∧
    ((checkChildPresence sampleVTimezone "SUMMARY" true).stop = true ∧
      (checkChildPresence sampleVTimezone "SUMMARY" true).result = true) ∧
    ((checkChildPresence sampleCalObj "SUMMARY" false).stop = false) ∧
    ((checkChildPresence sampleCalObj "SUMMARY" true).stop = true ∧
      (checkChildPresence sampleCalObj "SUMMARY" true).result = false) :=
  ⟨(checkChildPresence_table sampleVTimezone "SUMMARY" false).1 ⟨rfl, rfl⟩,
   (checkChildPresence_table sampleVTimezone "SUMMARY" true).2.1 ⟨rfl, rfl⟩,
   (checkChildPresence_table sampleCalObj "SUMMARY" false).2.2.1 ⟨rfl, rfl⟩,
   (checkChildPresence_table sampleCalObj "SUMMARY" true).2.2.2 ⟨rfl, rfl⟩⟩

/-- C9: whenever the presence check does not stop, the matched children
list is non-empty, so the index-0 access of the component-filter and
parameter-filter evaluators is well-defined. -/
theorem checkChildPresence_continue_nonempty (v : VNode) (n : String) (d : Bool)
    (h : (checkChildPresence v n d).stop = false) :
    (checkChildPresence v n d).children ≠ [] := by
  rw [checkChildPresence_stop_eq] at h
  have hset : v.isset n = true := by
    cases hs : v.isset n
    · rw [hs] at h; simp at h
    · rfl
  obtain ⟨c, hc, hp⟩ := List.any_eq_true.mp hset
  rw [checkChildPresence_children_eq, hset]
  simp only [if_true]
  exact List.ne_nil_of_mem (List.mem_filter.mpr ⟨hc, hp⟩)

/-- Witness for C9 at a concrete parent holding a SUMMARY property. -/
theorem checkChildPresence_continue_nonempty_witness :
    (checkChildPresence sampleCalObj "SUMMARY" false).children ≠ [] :=
  checkChildPresence_continue_nonempty sampleCalObj "SUMMARY" false rfl

/-- C8: a present time-range filter on a VALARM component returns false:
no error and never true. -/
theorem validateTimeRange_valarm_false (c : VNode) (tr : TimeRange)
    (h : c.name = "VALARM") :
    validateTimeRange c (some tr) = Except.ok false := by
  simp [validateTimeRange, h]

/-- Witness for C8 at a concrete VALARM node. -/
theorem validateTimeRange_valarm_false_witness :
    validateTimeRange sampleValarm (some sampleTR) = Except.ok false :=
  validateTimeRange_valarm_false sampleValarm sampleTR rfl

/-- C6: a present time-range filter on a VFREEBUSY component throws the
NotImplemented error (never a boolean), and the error propagates out of
validate, shown on a concrete calendar whose prop-filter path reaches a
VFREEBUSY node. -/
theorem validateTimeRange_vfreebusy_raises (c : VNode) (tr : TimeRange)
    (h : c.name = "VFREEBUSY") :
    validateTimeRange c (some tr) = Except.error (VErr.notImplemented
      ("time-range filters are currently not supported on " ++ c.name ++
        " components")) ∧
    validate sampleFBCal (some sampleFBRootFilter) = Except.error
      (VErr.notImplemented
        "time-range filters are currently not supported on VFREEBUSY components") := by
  constructor
  · simp [validateTimeRange, h]
  · rfl

/-- Witness for C6 at a concrete VFREEBUSY node. -/
theorem validateTimeRange_vfreebusy_raises_witness :
    validateTimeRange sampleFreeBusyProp (some sampleTR) = Except.error
      (VErr.notImplemented
        ("time-range filters are currently not supported on " ++
          VNode.name sampleFreeBusyProp ++ " components")) ∧
    validate sampleFBCal (some sampleFBRootFilter) = Except.error
      (VErr.notImplemented
        "time-range filters are currently not supported on VFREEBUSY components") :=
  validateTimeRange_vfreebusy_raises sampleFreeBusyProp sampleTR rfl

/-- C7: a present time-range filter on a component whose name is outside
the supported set throws the BadRequest error rather than returning a
boolean. -/
theorem validateTimeRange_unsupported_raises (c : VNode) (tr : TimeRange)
    (h : c.name ∉ (["VEVENT", "VTODO", "VJOURNAL", "VALARM", "VFREEBUSY",
      "COMPLETED", "CREATED", "DTEND", "DTSTAMP", "DTSTART", "DUE",
      "LAST-MODIFIED"] : List String)) :
    validateTimeRange c (some tr) = Except.error (VErr.badRequest
      ("You cannot create a time-range filter on a " ++ c.name ++ " component")) :=
  validateTimeRange_default_aux c tr h

/-- Witness for C7 at a concrete VTIMEZONE node. -/
theorem validateTimeRange_unsupported_raises_witness :
    validateTimeRange sampleVTimezone (some sampleTR) = Except.error
      (VErr.badRequest
        ("You cannot create a time-range filter on a " ++
          VNode.name sampleVTimezone ++ " component")) :=
  validateTimeRange_unsupported_raises sampleVTimezone sampleTR (by decide)

/-- C5: on the seven single-instant date property names, a time-range with
both bounds present matches exactly when start is at most the date-time
value and the date-time value is at most end — both endpoints
inclusive. -/
theorem validateTimeRange_dateProp_inclusive (c : VNode) (s e : Int)
    (h : c.name ∈ (["COMPLETED", "CREATED", "DTEND", "DTSTAMP", "DTSTART",
      "DUE", "LAST-MODIFIED"] : List String)) :
    validateTimeRange c (some ⟨some s, some e⟩) = Except.ok true ↔
      s ≤ c.dateTime ∧ c.dateTime ≤ e := by
  simp only [List.mem_cons, List.not_mem_nil, or_false] at h
  have hne1 : c.name ≠ "VEVENT" := by rcases h with h|h|h|h|h|h|h <;> simp [h]
  have hne2 : c.name ≠ "VTODO" := by rcases h with h|h|h|h|h|h|h <;> simp [h]
  have hne3 : c.name ≠ "VJOURNAL" := by rcases h with h|h|h|h|h|h|h <;> simp [h]
  have hne4 : c.name ≠ "VALARM" := by rcases h with h|h|h|h|h|h|h <;> simp [h]
  have hne5 : c.name ≠ "VFREEBUSY" := by rcases h with h|h|h|h|h|h|h <;> simp [h]
  simp [validateTimeRange, hne1, hne2, hne3, hne4, hne5, h, ge_iff_le,
    and_comm]

/-- Witness for C5: a DTSTART at instant 5 inside the range 1 to 10. -/
theorem validateTimeRange_dateProp_inclusive_witness :
    validateTimeRange sampleDTSTARTProp (some ⟨some 1, some 10⟩) =
      Except.ok true ↔
      1 ≤ VNode.dateTime sampleDTSTARTProp ∧
        VNode.dateTime sampleDTSTARTProp ≤ 10 :=
  validateTimeRange_dateProp_inclusive sampleDTSTARTProp 1 10 (by decide)

/-- When the existential child loop returns a boolean, that boolean is
true exactly when some child passes the validator with ok true. -/
theorem anyChildMatches_ok_iff (l : List VNode)
    (p : VNode → Except VErr Bool) (b : Bool)
    (h : anyChildMatches l p = Except.ok b) :
    b = true ↔ ∃ c ∈ l, p c = Except.ok true := by
  induction l with
  | nil =>
      simp only [anyChildMatches, Except.ok.injEq] at h
      subst h
      simp
  | cons c rest ih =>
      cases hp : p c with
      | error e =>
          simp only [anyChildMatches, hp] at h
          simp at h
      | ok bc =>
          cases bc with
          | false =>
              simp only [anyChildMatches, hp] at h
              rw [ih h]
              constructor
              · rintro ⟨x, hx, hpx⟩
                exact ⟨x, List.mem_cons_of_mem _ hx, hpx⟩
              · rintro ⟨x, hx, hpx⟩
                rcases List.mem_cons.mp hx with hx' | hx'
                · subst hx'
                  rw [hp] at hpx
                  simp at hpx
                · exact ⟨x, hx', hpx⟩
          | true =>
              simp only [anyChildMatches, hp, Except.ok.injEq] at h
              subst h
              simp only [true_iff]
              exact ⟨c, List.mem_cons_self c rest, hp⟩

/-- If every child of a prefix yields ok false and the next child throws,
the existential child loop throws that same error. -/
theorem anyChildMatches_error_after (pre rest : List VNode) (bad : VNode)
    (e : VErr) (p : VNode → Except VErr Bool)
    (hpre : ∀ c ∈ pre, p c = Except.ok false)
    (hbad : p bad = Except.error e) :
    anyChildMatches (pre ++ bad :: rest) p = Except.error e := by
  induction pre with
  | nil =>
      simp only [List.nil_append, anyChildMatches, hbad]
  | cons c cs ih =>
      have hc := hpre c (List.mem_cons_self c cs)
      simp only [List.cons_append, anyChildMatches, hc]
      exact ih (fun x hx => hpre x (List.mem_cons_of_mem c hx))

/-- The conjunction loop over a filter set yields ok true exactly when
every entry passes with ok true. -/
theorem validateFilterSet_ok_true_iff {α : Type} (v : VNode) (l : List α)
    (val : VNode → α → Except VErr Bool) :
    validateFilterSet v l val = Except.ok true ↔
      ∀ f ∈ l, val v f = Except.ok true := by
  induction l with
  | nil => simp [validateFilterSet]
  | cons f rest ih =>
      cases hf : val v f with
      | error e =>
          simp only [validateFilterSet, hf]
          constructor
          · intro h; simp at h
          · intro h
            have := h f (List.mem_cons_self f rest)
            rw [hf] at this
            simp at this
      | ok bf =>
          cases bf with
          | false =>
              simp only [validateFilterSet, hf]
              constructor
              · intro h; simp at h
              · intro h
                have := h f (List.mem_cons_self f rest)
                rw [hf] at this
                simp at this
          | true =>
              simp only [validateFilterSet, hf]
              rw [ih]
              constructor
              · intro h x hx
                rcases List.mem_cons.mp hx with hx' | hx'
                · subst hx'; exact hf
                · exact h x hx'
              · intro h x hx
                exact h x (List.mem_cons_of_mem f hx)

/-- The per-child prop-filter conjunction yields ok true exactly when the
time-range, the text-match and every param-filter each yield ok true. -/
theorem propFilterChildCheck_ok_true_iff (child : VNode) (f : PropFilter) :
    propFilterChildCheck child f = Except.ok true ↔
      (validateTimeRange child f.timeRange = Except.ok true ∧
       validateTextMatch child f.textMatch = Except.ok true ∧
       ∀ pf ∈ f.paramFilters, validateParamFilter child pf = Except.ok true) := by
  cases h1 : validateTimeRange child f.timeRange with
  | error e => simp [propFilterChildCheck, h1]
  | ok b1 =>
      cases b1 with
      | false => simp [propFilterChildCheck, h1]
      | true =>
          cases h2 : validateTextMatch child f.textMatch with
          | error e => simp [propFilterChildCheck, h1, h2]
          | ok b2 =>
              cases b2 with
              | false => simp [propFilterChildCheck, h1, h2]
              | true =>
                  simp [propFilterChildCheck, h1, h2,
                    validateFilterSet_ok_true_iff]

/-- On the continue path (name present, not negated) the prop-filter
evaluator is exactly the existential child loop over the selected
properties. -/
theorem validatePropFilter_continue (v : VNode) (f : PropFilter)
    (hex : v.isset f.name = true) (hnd : f.isNotDefined = false) :
    validatePropFilter v f =
      anyChildMatches (v.select f.name)
        (fun child => propFilterChildCheck child f) := by
  simp [validatePropFilter, checkChildPresence, hex, hnd]

/-- C4: for a prop-filter whose property exists and is not negated, when
evaluation returns a boolean, the boolean is true exactly when at least
one matched child property satisfies all three of its time-range, its
text-match and every one of its param-filters. -/
theorem validatePropFilter_existential (v : VNode) (f : PropFilter) (b : Bool)
    (hex : v.isset f.name = true) (hnd : f.isNotDefined = false)
    (hres : validatePropFilter v f = Except.ok b) :
    b = true ↔ ∃ child ∈ v.select f.name,
      validateTimeRange child f.timeRange = Except.ok true ∧
      validateTextMatch child f.textMatch = Except.ok true ∧
      ∀ pf ∈ f.paramFilters, validateParamFilter child pf = Except.ok true := by
  rw [validatePropFilter_continue v f hex hnd] at hres
  rw [anyChildMatches_ok_iff _ _ _ hres]
  simp only [propFilterChildCheck_ok_true_iff]

/-- Witness for C4: the SUMMARY prop-filter with an equality text-match
against a calendar holding SUMMARY Team Meeting evaluates to ok true, and
the existential characterisation holds there. -/
theorem validatePropFilter_existential_witness :
    true = true ↔ ∃ child ∈ VNode.select sampleCalObj "SUMMARY",
      validateTimeRange child c4PropFilter.timeRange = Except.ok true ∧
      validateTextMatch child c4PropFilter.textMatch = Except.ok true ∧
      ∀ pf ∈ c4PropFilter.paramFilters,
        validateParamFilter child pf = Except.ok true :=
  validatePropFilter_existential sampleCalObj c4PropFilter true rfl rfl rfl

/-- C2 is violated by the source: a prop-filter whose property exists, is
not negated and carries no text-match node reaches _validateTextMatch with
an undefined argument, whose value field access throws a TypeError instead
of being treated as trivially true. This theorem evaluates the embedded
code at the failing input. -/
theorem validatePropFilter_absent_textmatch_typeerror :
    c2PropFilter.textMatch = none ∧
    VNode.isset sampleCalObj "SUMMARY" = true ∧
    c2PropFilter.isNotDefined = false ∧
    validatePropFilter sampleCalObj c2PropFilter =
      Except.error (VErr.typeError "Cannot read property value of undefined") :=
  ⟨rfl, rfl, rfl, rfl⟩

/-- On the continue path, a failed time-range gate on the first matched
child makes the comp-filter evaluate to ok false. -/
theorem validateCompFilter_tr_false (v : VNode) (f : CompFilter)
    (hex : v.isset f.name = true) (hnd : f.isNotDefined = false)
    (h : validateTimeRangeOnComponent (v.select f.name).headI f.timeRange =
      Except.ok false) :
    validateCompFilter v f = Except.ok false := by
  cases f with
  | mk n d tr cfs pfs =>
      simp only [CompFilter.name] at hex
      simp only [CompFilter.isNotDefined] at hnd
      subst hnd
      simp only [CompFilter.name, CompFilter.timeRange] at h
      simp [validateCompFilter, checkChildPresence, hex, h]

/-- On the continue path, an error thrown by the time-range gate on the
first matched child propagates out of the comp-filter evaluator. -/
theorem validateCompFilter_tr_error (v : VNode) (f : CompFilter) (e : VErr)
    (hex : v.isset f.name = true) (hnd : f.isNotDefined = false)
    (h : validateTimeRangeOnComponent (v.select f.name).headI f.timeRange =
      Except.error e) :
    validateCompFilter v f = Except.error e := by
  cases f with
  | mk n d tr cfs pfs =>
      simp only [CompFilter.name] at hex
      simp only [CompFilter.isNotDefined] at hnd
      subst hnd
      simp only [CompFilter.name, CompFilter.timeRange] at h
      simp [validateCompFilter, checkChildPresence, hex, h]

/-- C1 fails on the source: a comp-filter whose named component exists,
is not negated and carries a time-range is NOT an existential over the
matched children. Concretely: cexParent has two matched VEVENT children
and the second satisfies the time-range, yet the comp-filter evaluates to
ok false, because the source examines only the children of the first
matched child. -/
theorem compFilter_timeRange_existential_cex :
    VNode.isset cexParent "VEVENT" = true ∧
    CompFilter.isNotDefined cexCompFilter = false ∧
    CompFilter.timeRange cexCompFilter = some sampleTR ∧
    cexEventMatch ∈ VNode.select cexParent "VEVENT" ∧
    validateTimeRange cexEventMatch (some sampleTR) = Except.ok true ∧
    validateCompFilter cexParent cexCompFilter = Except.ok false ∧
    ¬ (validateCompFilter cexParent cexCompFilter = Except.ok true ↔
        ∃ child ∈ VNode.select cexParent "VEVENT",
          validateTimeRange child (some sampleTR) = Except.ok true) := by
  have hmem : cexEventMatch ∈ VNode.select cexParent "VEVENT" := by
    have hsel : VNode.select cexParent "VEVENT" =
        [cexEventNoMatch, cexEventMatch] := rfl
    rw [hsel]
    exact List.mem_cons_of_mem _ (List.mem_cons_self _ _)
  refine ⟨rfl, rfl, rfl, hmem, rfl, rfl, ?_⟩
  intro hiff
  have hfalse : validateCompFilter cexParent cexCompFilter =
      Except.ok false := rfl
  have htrue := hiff.mpr ⟨cexEventMatch, hmem, rfl⟩
  rw [hfalse] at htrue
  simp at htrue

/-- C1 amended: on that path the time-range condition is evaluated only
against the first matched child: when its evaluation returns a boolean b,
b is true exactly when at least one direct child of the FIRST matched
component satisfies the time-range, and when b is false the whole
comp-filter evaluates to false. -/
theorem compFilter_timeRange_first_matched_only (v : VNode) (f : CompFilter)
    (tr : TimeRange) (b : Bool)
    (hex : v.isset f.name = true) (hnd : f.isNotDefined = false)
    (htr : f.timeRange = some tr)
    (h : validateTimeRangeOnComponent ((v.select f.name).headI) (some tr) =
      Except.ok b) :
    (b = true ↔ ∃ c ∈ ((v.select f.name).headI).getChildren,
        validateTimeRange c (some tr) = Except.ok true) ∧
    (b = false → validateCompFilter v f = Except.ok false) := by
  constructor
  · have h' := h
    simp only [validateTimeRangeOnComponent] at h'
    exact anyChildMatches_ok_iff _ _ _ h'
  · intro hb
    subst hb
    exact validateCompFilter_tr_false v f hex hnd (htr ▸ h)

/-- Witness for the amended C1 at the counterexample calendar: the first
matched VEVENT has no children, so the gate yields false and the
comp-filter yields ok false. -/
theorem compFilter_timeRange_first_matched_only_witness :
    (false = true ↔ ∃ c ∈ ((VNode.select cexParent "VEVENT").headI).getChildren,
        validateTimeRange c (some sampleTR) = Except.ok true) ∧
    (false = false → validateCompFilter cexParent cexCompFilter =
        Except.ok false) :=
  compFilter_timeRange_first_matched_only cexParent cexCompFilter sampleTR
    false rfl rfl rfl rfl

/-- C10: during comp-filter time-range evaluation the children of the
first matched component are tested in order; if every earlier child yields
false and a child with an unsupported name is reached, the BadRequest
error is thrown and propagates out of validate, although the comp-filter
itself targets a supported component type. -/
theorem compFilter_badchild_error_propagates (root : VNode)
    (fl : RootFilter) (f : CompFilter) (others : List CompFilter)
    (tr : TimeRange) (pre rest : List VNode) (bad : VNode)
    (hroot : root.name = fl.name)
    (hcfs : fl.compFilters = f :: others)
    (hex : root.isset f.name = true) (hnd : f.isNotDefined = false)
    (htr : f.timeRange = some tr)
    (hchildren : ((root.select f.name).headI).getChildren =
      pre ++ bad :: rest)
    (hpre : ∀ c ∈ pre, validateTimeRange c (some tr) = Except.ok false)
    (hbad : bad.name ∉ (["VEVENT", "VTODO", "VJOURNAL", "VALARM",
      "VFREEBUSY", "COMPLETED", "CREATED", "DTEND", "DTSTAMP", "DTSTART",
      "DUE", "LAST-MODIFIED"] : List String)) :
    validate root (some fl) = Except.error (VErr.badRequest
      ("You cannot create a time-range filter on a " ++ bad.name ++
        " component")) := by
  have herr := validateTimeRange_default_aux bad tr hbad
  have hvt : validateTimeRangeOnComponent ((root.select f.name).headI)
      (some tr) = Except.error (VErr.badRequest
        ("You cannot create a time-range filter on a " ++ bad.name ++
          " component")) := by
    simp only [validateTimeRangeOnComponent, hchildren]
    exact anyChildMatches_error_after pre rest bad _ _ hpre herr
  have hcf := validateCompFilter_tr_error root f _ hex hnd (htr ▸ hvt)
  simp [validate, hroot, hcfs, validateCompFilterSet, hcf]

/-- Witness for C10: a VEVENT whose first child is a SUMMARY property;
the comp-filter on VEVENT with a time-range makes validate throw
BadRequest naming SUMMARY. -/
theorem compFilter_badchild_error_propagates_witness :
    validate c10Cal (some c10RootFilter) = Except.error (VErr.badRequest
      ("You cannot create a time-range filter on a " ++
        VNode.name c10Summary ++ " component")) :=
  compFilter_badchild_error_propagates c10Cal c10RootFilter c10CompFilter
    [] sampleTR [] [sampleDTSTARTProp] c10Summary rfl rfl rfl rfl rfl rfl
    (fun c hc => absurd hc (List.not_mem_nil c)) (by decide)
